import Mathlib

/-!
Shallow embedding of the fixture-upload system
(`src/interview-validation-service.ts`, `src/interview-simplified-fixture-handler.ts`,
`src/interview-repository-layer.ts`, `src/unnamed/part_000`, `src/unnamed/part_001`,
`src/types.ts`).

Conventions of the embedding:
* TypeScript objects become Lean structures with the source field names.
* JavaScript objects used as string-keyed maps (`ResultMap`, `existingFixtures`,
  `gradeAttributes`, `roundsParams`) become association lists `List (String × _)`;
  a missing key (JS `undefined`, which is falsy) is `Option.none` / a `getD` default.
* The platform pieces that are external to the repository (S3 fetch, the Excel
  decoder, the database client) are parameters of the Lean functions; the SQL
  statements executed by `FixturePersistService` are modelled as operations on an
  explicit `DB` state, and the surrounding BEGIN/COMMIT/ROLLBACK transaction as
  an `Except` value that either commits the new state or restores the old one.
* JS `Date` values are modelled by an order-isomorphic integer encoding of the
  calendar date (`jsDateParse`); the current time `new Date()` is a parameter
  `now : Int` of every function that reads the clock.
-/

/-- Error taxonomy, from `ValidationError.type` in `src/types.ts`. -/
inductive ErrorType where
  | FILE_FORMAT
  | BUSINESS_RULE
  | DATA_INTEGRITY
deriving DecidableEq

/-- `ValidationError` from `src/types.ts` / `src/interview-validation-service.ts`
(optional fields become `Option`). -/
structure ValidationError where
  type : ErrorType
  message : String
  row : Option Nat := none
  column : Option String := none
  gradeID : Option String := none
deriving DecidableEq

/-- A raw row as produced by the (external) Excel decode, before trimming.
In the source these rows are untyped (`any[]`); the fields read by
`parseAndValidateFile` are the five below plus the optional `gameType`.
The mock decoder supplies `round` as a numeric string and the validator applies
`parseInt`; we model it directly as the parsed integer (the `!row.round` falsy
test and `row.round < 1` together are exactly `round < 1` on integers). -/
structure RawRow where
  gradeCode : String
  homeTeam : String
  awayTeam : String
  date : String
  round : Int
  gameType : Option String := none
deriving DecidableEq

/-- `FixtureRow` from `src/types.ts`: the accepted, trimmed form of a row. -/
structure FixtureRow where
  gradeCode : String
  homeTeam : String
  awayTeam : String
  date : String
  round : Int
  gameType : Option String := none
deriving DecidableEq

/-- `Grade` from `src/types.ts`. -/
structure Grade where
  id : String
  code : String
  seasonID : String
  noOfRounds : Int
deriving DecidableEq

/-- `Team` from `src/types.ts`. -/
structure Team where
  id : String
  name : String
  gradeID : String
deriving DecidableEq

/-- `ValidationContext` from `src/types.ts`.  `existingFixtures` is the
string-keyed object returned by `ValidationGradeRepository.hasFixtures`
(`src/interview-repository-layer.ts` lines 343-357), whose keys are grade
*codes*; it is modelled as an association list. -/
structure ValidationContext where
  seasonID : String
  grades : List Grade
  teams : List Team
  existingFixtures : List (String × Bool)
deriving DecidableEq

/-- JS property read `m[k]` on a boolean-valued object used in a condition:
a present key yields its value, an absent key yields `undefined`, which is
falsy. -/
def lookupFlag (m : List (String × Bool)) (k : String) : Bool :=
  (m.lookup k).getD false

/-- Whitespace for the purposes of JS `String.prototype.trim` (restricted to
the ASCII whitespace that can occur in the fixture file). -/
def isJsWhitespace (c : Char) : Bool :=
  c = ' ' || c = '\t' || c = '\n' || c = '\r'

/-- Model of JS `String.prototype.trim`: drop leading and trailing whitespace. -/
def jsTrim (s : String) : String :=
  ⟨((s.data.dropWhile isJsWhitespace).reverse.dropWhile isJsWhitespace).reverse⟩

/-- The test `/^\d{2}\/\d{2}\/\d{4}$/.test(dateString)` from `isValidDate`
(`src/interview-validation-service.ts` line 347): exactly ten characters,
digits in the day/month/year positions, slashes between them. -/
def dateRegexTest (s : String) : Bool :=
  match s.data with
  | [d1, d2, s1, m1, m2, s2, y1, y2, y3, y4] =>
    d1.isDigit && d2.isDigit && s1 = '/' && m1.isDigit && m2.isDigit && s2 = '/'
      && y1.isDigit && y2.isDigit && y3.isDigit && y4.isDigit
  | _ => false

/-- Numeric value of a digit character pair. -/
def twoDigits (a b : Char) : Int :=
  (a.toNat - '0'.toNat : Int) * 10 + (b.toNat - '0'.toNat : Int)

/-- Numeric value of a four-digit year. -/
def fourDigits (a b c d : Char) : Int :=
  twoDigits a b * 100 + twoDigits c d

/-- Gregorian leap-year test, as used by the platform date parser. -/
def isLeapYear (y : Int) : Bool :=
  (y % 4 = 0 && y % 100 ≠ 0) || y % 400 = 0

/-- Days in a Gregorian month. -/
def daysInMonth (m y : Int) : Int :=
  if m = 2 then (if isLeapYear y then 29 else 28)
  else if m = 4 || m = 6 || m = 9 || m = 11 then 30
  else 31

/-- Order-isomorphic integer encoding of a calendar date (stands in for the
millisecond timestamp of the JS `Date`; only the ordering of dates is ever
used by the source, never the absolute value). -/
def dateEncode (y m d : Int) : Int :=
  y * 372 + (m - 1) * 31 + (d - 1)

/-- Model of the platform `Date.parse` restricted to the `MM/DD/YYYY` strings
built by `parseDate`: `none` stands for `NaN` (and `new Date(NaN) < x` is
false, matching the `Option` fall-through below).  A parse succeeds exactly
on in-range calendar dates. -/
def jsDateParse (s : String) : Option Int :=
  match s.data with
  | [m1, m2, s1, d1, d2, s2, y1, y2, y3, y4] =>
    if m1.isDigit && m2.isDigit && s1 = '/' && d1.isDigit && d2.isDigit && s2 = '/'
        && y1.isDigit && y2.isDigit && y3.isDigit && y4.isDigit then
      let m := twoDigits m1 m2
      let d := twoDigits d1 d2
      let y := fourDigits y1 y2 y3 y4
      if 1 ≤ m && m ≤ 12 && 1 ≤ d && d ≤ daysInMonth m y then
        some (dateEncode y m d)
      else none
    else none
  | _ => none

/-- Split a character list at `'/'` (JS `dateString.split('/')`). -/
def splitSlash : List Char → List (List Char)
  | [] => [[]]
  | '/' :: rest => [] :: splitSlash rest
  | c :: rest =>
    match splitSlash rest with
    | [] => [[c]]
    | p :: ps => (c :: p) :: ps

/-- `parseDate` (`src/interview-validation-service.ts` lines 351-355): convert
`DD/MM/YYYY` to `MM/DD/YYYY` by splitting on `/` and swapping the first two
parts.  When the split yields fewer than three parts the JS template produces
a string containing `undefined`, which `Date.parse` rejects; the empty string
(also rejected by `jsDateParse`) stands for those strings. -/
def parseDate (dateString : String) : String :=
  match splitSlash dateString.data with
  | day :: month :: year :: _ => ⟨month ++ '/' :: day ++ '/' :: year⟩
  | _ => ""

/-- `isValidDate` (`src/interview-validation-service.ts` lines 345-349):
regex shape test, then `!isNaN(Date.parse(parseDate(dateString)))`.
The `!dateString` guard is subsumed by the shape test. -/
def isValidDate (dateString : String) : Bool :=
  dateRegexTest dateString && (jsDateParse (parseDate dateString)).isSome

/-- The per-row file-format checks of `parseAndValidateFile`
(`src/interview-validation-service.ts` lines 105-163), in source order:
required fields, date format, round number, self-play.  `rowNumber` is the
Excel row number (`index + 2`).  Note the self-play check compares the raw,
untrimmed strings. -/
def rowFormatErrors (rowNumber : Nat) (row : RawRow) : List ValidationError :=
  (if jsTrim row.gradeCode = "" then
    [{ type := .FILE_FORMAT, message := "Row " ++ toString rowNumber ++ ": Grade Code is required",
       row := some rowNumber, column := some "Grade Code" }] else [])
  ++ (if jsTrim row.homeTeam = "" then
    [{ type := .FILE_FORMAT, message := "Row " ++ toString rowNumber ++ ": Home Team is required",
       row := some rowNumber, column := some "Home Team" }] else [])
  ++ (if jsTrim row.awayTeam = "" then
    [{ type := .FILE_FORMAT, message := "Row " ++ toString rowNumber ++ ": Away Team is required",
       row := some rowNumber, column := some "Away Team" }] else [])
  ++ (if ¬ isValidDate row.date then
    [{ type := .FILE_FORMAT, message := "Row " ++ toString rowNumber ++ ": Invalid date format. Use DD/MM/YYYY",
       row := some rowNumber, column := some "Date" }] else [])
  ++ (if row.round < 1 then
    [{ type := .FILE_FORMAT, message := "Row " ++ toString rowNumber ++ ": Round must be a positive number",
       row := some rowNumber, column := some "Round" }] else [])
  ++ (if row.homeTeam = row.awayTeam then
    [{ type := .FILE_FORMAT, message := "Row " ++ toString rowNumber ++ ": Home team and away team cannot be the same",
       row := some rowNumber }] else [])

/-- The accepted, trimmed row pushed by `parseAndValidateFile` (lines 167-174). -/
def toFixtureRow (row : RawRow) : FixtureRow :=
  { gradeCode := jsTrim row.gradeCode
    homeTeam := jsTrim row.homeTeam
    awayTeam := jsTrim row.awayTeam
    date := row.date
    round := row.round
    gameType := row.gameType.map jsTrim }

/-- Result of `parseAndValidateFile`. -/
structure ParseResult where
  fixtureRows : List FixtureRow
  formatErrors : List ValidationError
deriving DecidableEq

/-- The `forEach` loop of `parseAndValidateFile`, carrying the Excel row
number.  The source tests `formatErrors.filter(e => e.row === rowNumber)`,
and since every error of row `n` carries `row = n` and row numbers are
distinct per index, that filter is exactly the error list of the current row. -/
def parseRows : Nat → List RawRow → ParseResult
  | _, [] => { fixtureRows := [], formatErrors := [] }
  | rowNumber, row :: rest =>
    let errs := rowFormatErrors rowNumber row
    let tail := parseRows (rowNumber + 1) rest
    { fixtureRows := (if errs = [] then [toFixtureRow row] else []) ++ tail.fixtureRows
      formatErrors := errs ++ tail.formatErrors }

/-- `parseAndValidateFile` (`src/interview-validation-service.ts` lines 91-190),
applied to the rows produced by the (external) Excel decode.  Excel rows are
numbered from 2. -/
def parseAndValidateFile (rows : List RawRow) : ParseResult :=
  parseRows 2 rows

/-- Message of the grade-existence violation (line 238). -/
def gradeNotExistMsg (gradeCode : String) : String :=
  "Grade \x27" ++ gradeCode ++ "\x27 does not exist in this season"

/-- Message of the home-team membership violation (line 252). -/
def homeTeamMsg (homeTeam gradeCode : String) : String :=
  "Home team \x27" ++ homeTeam ++ "\x27 is not registered in grade \x27" ++ gradeCode ++ "\x27"

/-- Message of the away-team membership violation (line 260). -/
def awayTeamMsg (awayTeam gradeCode : String) : String :=
  "Away team \x27" ++ awayTeam ++ "\x27 is not registered in grade \x27" ++ gradeCode ++ "\x27"

/-- Message of the round-bound violation (line 269). -/
def roundExceedsMsg (round noOfRounds : Int) (gradeCode : String) : String :=
  "Round " ++ toString round ++ " exceeds maximum rounds (" ++ toString noOfRounds
    ++ ") for grade \x27" ++ gradeCode ++ "\x27"

/-- Message of the past-date violation (line 281). -/
def pastDateMsg (gradeCode date : String) : String :=
  "Cannot schedule games in the past for grade \x27" ++ gradeCode ++ "\x27. Date: " ++ date

/-- The comparison `new Date(parseDate(row.date)) < new Date()`: an invalid
date is `NaN` and every comparison against `NaN` is false. -/
def jsDateLt (d : Option Int) (now : Int) : Bool :=
  match d with
  | some t => t < now
  | none => false

/-- `validateFixtureRow` (`src/interview-validation-service.ts` lines 230-287):
grade-existence short-circuit, then team membership, round bound and the
past-date rule, pushing errors in source order.  `now` is the value of
`new Date()` at processing time. -/
def validateFixtureRow (now : Int) (row : FixtureRow) (context : ValidationContext) :
    List ValidationError :=
  match context.grades.find? (fun g => g.code == row.gradeCode) with
  | none =>
    [{ type := .BUSINESS_RULE, message := gradeNotExistMsg row.gradeCode,
       gradeID := some row.gradeCode }]
  | some grade =>
    let gradeTeams := context.teams.filter (fun t => t.gradeID == grade.id)
    let homeTeam := gradeTeams.find? (fun t => t.name == row.homeTeam)
    let awayTeam := gradeTeams.find? (fun t => t.name == row.awayTeam)
    (if homeTeam.isNone then
      [{ type := .BUSINESS_RULE, message := homeTeamMsg row.homeTeam row.gradeCode,
         gradeID := some grade.id }] else [])
    ++ (if awayTeam.isNone then
      [{ type := .BUSINESS_RULE, message := awayTeamMsg row.awayTeam row.gradeCode,
         gradeID := some grade.id }] else [])
    ++ (if row.round > grade.noOfRounds then
      [{ type := .BUSINESS_RULE, message := roundExceedsMsg row.round grade.noOfRounds row.gradeCode,
         gradeID := some grade.id }] else [])
    ++ (if jsDateLt (jsDateParse (parseDate row.date)) now
           && !(lookupFlag context.existingFixtures grade.id) then
      [{ type := .BUSINESS_RULE, message := pastDateMsg row.gradeCode row.date,
         gradeID := some grade.id }] else [])

/-- Message of the duplicate-game violation (line 303). -/
def dupGameMsg (row : FixtureRow) : String :=
  "Duplicate game: " ++ row.homeTeam ++ " vs " ++ row.awayTeam ++ " in round "
    ++ toString row.round ++ " of grade " ++ row.gradeCode

/-- Message of the double-booking violation (lines 318 and 325). -/
def doubleBookMsg (team : String) (round : Int) (gradeCode : String) : String :=
  "Team \x27" ++ team ++ "\x27 is scheduled for multiple games in round "
    ++ toString round ++ " of grade " ++ gradeCode

/-- State of the `validateCrossRowRules` sweep: the `gameSignatures` set and
the `teamRoundTracker` map of JS `Set`s, in insertion order. -/
structure CrossState where
  gameSignatures : List String
  teamRoundTracker : List (String × List Int)
deriving DecidableEq

/-- JS `teamRoundTracker.has(k)`. -/
def trackerHas (t : List (String × List Int)) (k : String) : Bool :=
  (t.find? (fun p => p.1 == k)).isSome

/-- JS `teamRoundTracker.get(k)!` after the key has been ensured. -/
def trackerGet (t : List (String × List Int)) (k : String) : List Int :=
  ((t.find? (fun p => p.1 == k)).map (fun p => p.2)).getD []

/-- JS `teamRoundTracker.get(k)!.add(round)`: in-place insertion into the set. -/
def trackerAdd (t : List (String × List Int)) (k : String) (round : Int) :
    List (String × List Int) :=
  t.map (fun p => if p.1 == k then (p.1, if p.2.contains round then p.2 else p.2 ++ [round]) else p)

/-- One iteration of the `fixtureRows.forEach` body of `validateCrossRowRules`
(`src/interview-validation-service.ts` lines 296-331), returning the updated
state and the errors pushed for this row, in push order. -/
def crossStep (st : CrossState) (row : FixtureRow) : CrossState × List ValidationError :=
  let gameSignature := row.gradeCode ++ "-" ++ row.homeTeam ++ "-" ++ row.awayTeam
    ++ "-" ++ toString row.round
  let dupErrs := if st.gameSignatures.contains gameSignature then
    [{ type := .DATA_INTEGRITY, message := dupGameMsg row }] else []
  let sigs := if st.gameSignatures.contains gameSignature then st.gameSignatures
    else st.gameSignatures ++ [gameSignature]
  let homeKey := row.gradeCode ++ "-" ++ row.homeTeam
  let awayKey := row.gradeCode ++ "-" ++ row.awayTeam
  let t0 := if trackerHas st.teamRoundTracker homeKey then st.teamRoundTracker
    else st.teamRoundTracker ++ [(homeKey, [])]
  let t1 := if trackerHas t0 awayKey then t0 else t0 ++ [(awayKey, [])]
  let homeErrs := if (trackerGet t1 homeKey).contains row.round then
    [{ type := .DATA_INTEGRITY, message := doubleBookMsg row.homeTeam row.round row.gradeCode }]
    else []
  let awayErrs := if (trackerGet t1 awayKey).contains row.round then
    [{ type := .DATA_INTEGRITY, message := doubleBookMsg row.awayTeam row.round row.gradeCode }]
    else []
  let t2 := trackerAdd t1 homeKey row.round
  let t3 := trackerAdd t2 awayKey row.round
  ({ gameSignatures := sigs, teamRoundTracker := t3 }, dupErrs ++ homeErrs ++ awayErrs)

/-- The `forEach` loop of `validateCrossRowRules`, accumulating errors. -/
def crossLoop : CrossState → List FixtureRow → List ValidationError
  | _, [] => []
  | st, row :: rest =>
    let step := crossStep st row
    step.2 ++ crossLoop step.1 rest

/-- `validateCrossRowRules` (`src/interview-validation-service.ts` lines 290-334). -/
def validateCrossRowRules (fixtureRows : List FixtureRow) : List ValidationError :=
  crossLoop { gameSignatures := [], teamRoundTracker := [] } fixtureRows

/-- `validateBusinessRules` (`src/interview-validation-service.ts` lines
193-208): every row is validated against the context (the loop never stops
early), then the cross-row rules run over the full set; the context — loaded
from the repositories by `loadValidationContext`, an external round trip — is
a parameter here. -/
def validateBusinessRules (now : Int) (fixtureRows : List FixtureRow)
    (context : ValidationContext) : List ValidationError :=
  (fixtureRows.flatMap (fun row => validateFixtureRow now row context))
    ++ validateCrossRowRules fixtureRows

/-- The value returned by `validateS3File` (fields `fileBuffer` — modelled by
its presence — and `validationErrors`; the pass-through `objectKey` is
omitted). -/
structure S3ValidationResult where
  fileBufferPresent : Bool
  validationErrors : Option (List String)
deriving DecidableEq

/-- `validateS3File` (`src/interview-validation-service.ts` lines 56-88) on a
successfully fetched file whose decode yields `rawRows`: if the file-format
stage produced any error, return those messages at once (business-rule
validation does not run); otherwise run business-rule validation and return
all messages, or `none` when there is no violation. -/
def validateS3File (now : Int) (rawRows : List RawRow) (context : ValidationContext) :
    S3ValidationResult :=
  let parseResult := parseAndValidateFile rawRows
  if parseResult.formatErrors ≠ [] then
    { fileBufferPresent := false,
      validationErrors := some (parseResult.formatErrors.map (fun e => e.message)) }
  else
    let businessValidationErrors := validateBusinessRules now parseResult.fixtureRows context
    let allErrors := parseResult.formatErrors ++ businessValidationErrors
    { fileBufferPresent := true,
      validationErrors := if allErrors ≠ [] then some (allErrors.map (fun e => e.message))
        else none }

/-- The `round` object of a `RoundParam` (`src/types.ts`). -/
structure RoundKey where
  sequenceNo : Int
  provisionalDate : String
deriving DecidableEq

/-- One game of a `RoundParam`: the fields read by `persistRound`
(`src/unnamed/part_000` lines 327-344).  `provisionalDates` is optional in
the input (`gameData.provisionalDates || []`). -/
structure GameData where
  id : String
  homeTeamID : String
  awayTeamID : String
  date : String
  provisionalDates : Option (List String) := none
deriving DecidableEq

/-- `RoundParam` (`src/types.ts`). -/
structure RoundParam where
  round : RoundKey
  games : List GameData
deriving DecidableEq

/-- A row of the `rounds` table. -/
structure RoundRow where
  id : String
  gradeID : String
  sequenceNo : Int
  provisionalDate : String
deriving DecidableEq

/-- A row of the `games` table. -/
structure GameRow where
  id : String
  roundID : String
  homeTeamID : String
  awayTeamID : String
  date : String
  provisionalDates : List String
deriving DecidableEq

/-- A row of the `grades` table (the columns touched by
`updateGradeAttributes`). -/
structure GradeRow where
  id : String
  noOfRounds : Int
  startDate : Option String
deriving DecidableEq

/-- The store state seen by `FixturePersistService`. -/
structure DB where
  rounds : List RoundRow
  games : List GameRow
  grades : List GradeRow
deriving DecidableEq

/-- The per-grade attributes computed by `calculateGradeAttributes`
(`src/interview-simplified-fixture-handler.ts` lines 113-131). -/
structure GradeAttrs where
  noOfRounds : Int
  startDate : Option String
deriving DecidableEq

/-- Failures surfaced by the store client during `persist`:
`uniqueViolation` is the Postgres duplicate-key error of the `games` insert,
`missingAttributes` the JS `TypeError` thrown inside `updateGradeAttributes`
when `gradeAttributes[gradeID]` is `undefined`.  Both are caught by the
`catch` of `persist`. -/
inductive PgError where
  | uniqueViolation (gameID : String)
  | missingAttributes (gradeID : String)
deriving DecidableEq

instance {ε α : Type} [DecidableEq ε] [DecidableEq α] : DecidableEq (Except ε α) := fun a b =>
  match a, b with
  | .error e, .error f => decidable_of_iff (e = f) (by simp)
  | .ok x, .ok y => decidable_of_iff (x = y) (by simp)
  | .error _, .ok _ => isFalse (by simp)
  | .ok _, .error _ => isFalse (by simp)

/-- Key predicate of the `ON CONFLICT (grade_id, sequence_no)` unique index. -/
def roundKeyMatch (gradeID : String) (sequenceNo : Int) (r : RoundRow) : Bool :=
  r.gradeID == gradeID && r.sequenceNo == sequenceNo

/-- The round upsert of `persistRound` (`src/unnamed/part_000` lines 306-320):
`INSERT ... ON CONFLICT (grade_id, sequence_no) DO UPDATE SET provisional_date
= EXCLUDED.provisional_date ... RETURNING id`.  On conflict the existing row
keeps its id and gets the new provisional date; otherwise a fresh row is
inserted (the store-generated id is modelled as a composite of the key). -/
def upsertRound (db : DB) (gradeID : String) (sequenceNo : Int) (provisionalDate : String) :
    String × DB :=
  match db.rounds.find? (roundKeyMatch gradeID sequenceNo) with
  | some r =>
    (r.id,
     { db with rounds := db.rounds.map (fun x =>
        if roundKeyMatch gradeID sequenceNo x then { x with provisionalDate := provisionalDate }
        else x) })
  | none =>
    let rid := "round:" ++ gradeID ++ ":" ++ toString sequenceNo
    let newRow : RoundRow :=
      { id := rid, gradeID := gradeID, sequenceNo := sequenceNo,
        provisionalDate := provisionalDate }
    (rid, { db with rounds := db.rounds ++ [newRow] })

/-- The game insert of `persistRound` (`src/unnamed/part_000` lines 328-344):
a plain `INSERT INTO games` with the caller-supplied id and **no** `ON
CONFLICT` clause.  Modelled from the spec: `games.id` is the key of the table
("`id` is caller-supplied (idempotency key ...)"), so inserting an id that is
already present raises a unique-violation store error instead of writing. -/
def insertGame (db : DB) (roundID : String) (gameData : GameData) :
    Except PgError (String × DB) :=
  if db.games.any (fun g => g.id == gameData.id) then
    .error (.uniqueViolation gameData.id)
  else
    let newRow : GameRow :=
      { id := gameData.id, roundID := roundID, homeTeamID := gameData.homeTeamID,
        awayTeamID := gameData.awayTeamID, date := gameData.date,
        provisionalDates := gameData.provisionalDates.getD [] }
    .ok (gameData.id, { db with games := db.games ++ [newRow] })

/-- The `for (const gameData of roundParam.games)` loop of `persistRound`,
collecting game ids and team ids in push order. -/
def insertGames (db : DB) (roundID : String) :
    List GameData → Except PgError (List String × List String × DB)
  | [] => .ok ([], [], db)
  | gameData :: rest =>
    match insertGame db roundID gameData with
    | .error e => .error e
    | .ok (gameID, db1) =>
      match insertGames db1 roundID rest with
      | .error e => .error e
      | .ok (gameIDs, teamIDs, db2) =>
        .ok (gameID :: gameIDs, gameData.homeTeamID :: gameData.awayTeamID :: teamIDs, db2)

/-- `persistRound` (`src/unnamed/part_000` lines 300-351): upsert the round,
then insert each of its games inside the same transaction. -/
def persistRound (db : DB) (gradeID : String) (roundParam : RoundParam) :
    Except PgError (List String × List String × DB) :=
  let upsert := upsertRound db gradeID roundParam.round.sequenceNo roundParam.round.provisionalDate
  insertGames upsert.2 upsert.1 roundParam.games

/-- `updateGradeAttributes` (`src/unnamed/part_000` lines 353-367):
`UPDATE grades SET no_of_rounds, start_date WHERE id = $1`.  Reading
`attributes.noOfRounds` of an `undefined` attributes object throws. -/
def updateGradeAttributes (db : DB) (gradeID : String) (attributes : Option GradeAttrs) :
    Except PgError DB :=
  match attributes with
  | none => .error (.missingAttributes gradeID)
  | some a =>
    .ok { db with grades := db.grades.map (fun g =>
      if g.id == gradeID then { g with noOfRounds := a.noOfRounds, startDate := a.startDate }
      else g) }

/-- The `for (const roundParam of roundParams)` loop of `persist`. -/
def persistRoundsLoop (db : DB) (gradeID : String) :
    List RoundParam → Except PgError (List String × List String × DB)
  | [] => .ok ([], [], db)
  | roundParam :: rest =>
    match persistRound db gradeID roundParam with
    | .error e => .error e
    | .ok (gameIDs, teamIDs, db1) =>
      match persistRoundsLoop db1 gradeID rest with
      | .error e => .error e
      | .ok (gameIDs2, teamIDs2, db2) => .ok (gameIDs ++ gameIDs2, teamIDs ++ teamIDs2, db2)

/-- The `for (const gradeID of gradeIDs)` loop of `persist`: all rounds and
games of a grade, then the attribute update of that grade. -/
def persistGrades (db : DB) (gradeAttributes : List (String × GradeAttrs)) :
    List (String × List RoundParam) → Except PgError (List String × List String × DB)
  | [] => .ok ([], [], db)
  | (gradeID, roundParams) :: rest =>
    match persistRoundsLoop db gradeID roundParams with
    | .error e => .error e
    | .ok (gameIDs, teamIDs, db1) =>
      match updateGradeAttributes db1 gradeID (gradeAttributes.lookup gradeID) with
      | .error e => .error e
      | .ok db2 =>
        match persistGrades db2 gradeAttributes rest with
        | .error e => .error e
        | .ok (gameIDs2, teamIDs2, db3) => .ok (gameIDs ++ gameIDs2, teamIDs ++ teamIDs2, db3)

/-- The value returned by a successful `persist`. -/
structure PersistResult where
  gradeIDs : List String
  teamIDs : List String
  gameIDs : List String
deriving DecidableEq

/-- `FixturePersistService.persist` (`src/unnamed/part_000` lines 254-298):
one transaction around all grades; on success the new store state is
committed and the collected ids returned (team ids deduplicated, JS
`[...new Set(..)]` keeping first occurrences); on any failure the transaction
is rolled back — the store state reverts to the input — and the error is
rethrown. -/
def persist (roundsParams : List (String × List RoundParam)) (competitionType : String)
    (gradeAttributes : List (String × GradeAttrs)) (db : DB) :
    Except PgError PersistResult × DB :=
  match persistGrades db gradeAttributes roundsParams with
  | .ok (allGameIDs, allTeamIDs, db1) =>
    (.ok { gradeIDs := roundsParams.map (fun p => p.1),
           teamIDs := allTeamIDs.eraseDups,
           gameIDs := allGameIDs }, db1)
  | .error e => (.error e, db)

/-- JS `a || b` on an optional string: an absent or empty (falsy) left operand
falls through to the right operand. -/
def jsOrStr (a b : Option String) : Option String :=
  match a with
  | some s => if s = "" then b else a
  | none => b

/-- The body of the `reduce` in `calculateGradeAttributes`
(`src/interview-simplified-fixture-handler.ts` lines 119-130): additive round
count and `existingRounds[0]?.provisionalDate ||
suppliedRounds[0]?.round?.provisionalDate`. -/
def gradeAttrsFor (existingRounds : List RoundRow) (suppliedRounds : List RoundParam) :
    GradeAttrs :=
  { noOfRounds := existingRounds.length + suppliedRounds.length,
    startDate := jsOrStr (existingRounds.head?.map (fun r => r.provisionalDate))
      (suppliedRounds.head?.map (fun p => p.round.provisionalDate)) }

/-- `calculateGradeAttributes` (`src/interview-simplified-fixture-handler.ts`
lines 113-131): `allRoundsByGrade` is the (external) fetch
`roundRepo.findByGradeIDs(gradeIDs)`; an absent key defaults to `[]`. -/
def calculateGradeAttributes (roundsParams : List (String × List RoundParam))
    (allRoundsByGrade : List (String × List RoundRow)) : List (String × GradeAttrs) :=
  roundsParams.map (fun p =>
    (p.1, gradeAttrsFor ((allRoundsByGrade.lookup p.1).getD []) p.2))

/-- `Competition` from `src/types.ts` (`type` kept as a string). -/
structure Competition where
  id : String
  seasonID : String
  type : String
deriving DecidableEq

/-- Outcome of `SimplifiedFixtureUploadHandler.handle`. -/
inductive HandleResult where
  | rejected (errors : List String)
  | processed (gradeIDs teamIDs gameIDs : List String)
  | failed
deriving DecidableEq

/-- Observable effect trace of one `handle` call: its result, whether
`persistService.persist` was reached, and the final store state. -/
structure HandleOutput where
  result : HandleResult
  persistInvoked : Bool
  db : DB
deriving DecidableEq

/-- `SimplifiedFixtureUploadHandler.handle` together with
`processFixtureUpload` (`src/interview-simplified-fixture-handler.ts` lines
43-105): validate the file; on any validation error return them without
touching the store; otherwise compute the grade attributes from the supplied
rounds and the existing rounds and run `persist` (whose own failure the
handler turns into the aggregate `Fixture upload failed` error).  The
external pieces are parameters: `rawRows` is the decode of the S3 object,
`roundsParams` the decode used by `processFixtureUpload` (`parseFixtureFile`
is a stub in the source), `allRoundsByGrade` the round fetch and
`competition` the competition fetch. -/
def handle (now : Int) (rawRows : List RawRow) (context : ValidationContext)
    (roundsParams : List (String × List RoundParam))
    (allRoundsByGrade : List (String × List RoundRow))
    (competition : Option Competition) (db : DB) : HandleOutput :=
  match (validateS3File now rawRows context).validationErrors with
  | some (e :: errs) => { result := .rejected (e :: errs), persistInvoked := false, db := db }
  | _ =>
    let gradeAttributes := calculateGradeAttributes roundsParams allRoundsByGrade
    let competitionType := (competition.map (fun c => c.type)).getD "DOMESTIC"
    match persist roundsParams competitionType gradeAttributes db with
    | (.ok r, db1) =>
      { result := .processed r.gradeIDs r.teamIDs r.gameIDs, persistInvoked := true, db := db1 }
    | (.error _, db1) => { result := .failed, persistInvoked := true, db := db1 }

/-- The past-date violation record pushed by `validateFixtureRow` for a
resolved grade. -/
def pastDateError (row : FixtureRow) (grade : Grade) : ValidationError :=
  { type := .BUSINESS_RULE, message := pastDateMsg row.gradeCode row.date,
    gradeID := some grade.id }

/-- The rows of the `rounds` table holding a given (grade, sequence) key. -/
def roundsFor (db : DB) (gradeID : String) (sequenceNo : Int) : List RoundRow :=
  db.rounds.filter (roundKeyMatch gradeID sequenceNo)

/-- The ids of the `games` table rows. -/
def gameIDsOf (db : DB) : List String :=
  db.games.map (fun g => g.id)

/-- The game ids supplied by one round of the upload. -/
def roundsGameIDs (roundParams : List RoundParam) : List String :=
  roundParams.flatMap (fun rp => rp.games.map (fun g => g.id))

/-- All game ids supplied by an upload, in persist order. -/
def paramsGameIDs (roundsParams : List (String × List RoundParam)) : List String :=
  roundsParams.flatMap (fun p => roundsGameIDs p.2)

theorem string_data_append (a b : String) : (a ++ b).data = a.data ++ b.data := by
  cases a; cases b; rfl

theorem string_head_append (x y : String) (c : Char) (h : x.data.head? = some c) :
    (x ++ y).data.head? = some c := by
  rw [string_data_append, List.head?_append, h]; rfl

theorem string_ne_of_head {s t : String} {c d : Char} (hs : s.data.head? = some c)
    (ht : t.data.head? = some d) (hcd : c ≠ d) : s ≠ t := by
  intro h
  rw [h, ht] at hs
  exact hcd (Option.some.inj hs).symm

theorem string_append_left_cancel {a b c : String} (h : a ++ b = a ++ c) : b = c := by
  have hd := congrArg String.data h
  rw [string_data_append, string_data_append] at hd
  have h2 := List.append_cancel_left hd
  cases b; cases c; exact congrArg String.mk h2

theorem gradeNotExistMsg_head (gc : String) : (gradeNotExistMsg gc).data.head? = some 'G' := by
  unfold gradeNotExistMsg
  exact string_head_append _ _ _ (string_head_append "Grade \x27" gc 'G' (by decide))

theorem homeTeamMsg_head (ht gc : String) : (homeTeamMsg ht gc).data.head? = some 'H' := by
  unfold homeTeamMsg
  exact string_head_append _ _ _ (string_head_append _ _ _
    (string_head_append _ _ _ (string_head_append "Home team \x27" ht 'H' (by decide))))

theorem awayTeamMsg_head (at_ gc : String) : (awayTeamMsg at_ gc).data.head? = some 'A' := by
  unfold awayTeamMsg
  exact string_head_append _ _ _ (string_head_append _ _ _
    (string_head_append _ _ _ (string_head_append "Away team \x27" at_ 'A' (by decide))))

theorem roundExceedsMsg_head (round noOfRounds : Int) (gc : String) :
    (roundExceedsMsg round noOfRounds gc).data.head? = some 'R' := by
  unfold roundExceedsMsg
  exact string_head_append _ _ _ (string_head_append _ _ _ (string_head_append _ _ _
    (string_head_append _ _ _ (string_head_append _ _ _
      (string_head_append "Round " (toString round) 'R' (by decide))))))

theorem pastDateMsg_head (gc date : String) : (pastDateMsg gc date).data.head? = some 'C' := by
  unfold pastDateMsg
  exact string_head_append _ _ _ (string_head_append _ _ _
    (string_head_append "Cannot schedule games in the past for grade \x27" gc 'C' (by decide)))

theorem mem_if_singleton {α : Type} {e x : α} {c : Prop} [Decidable c]
    (h : e ∈ (if c then [x] else ([] : List α))) : e = x := by
  by_cases hc : c <;> simp [hc] at h
  exact h

theorem filter_map_update {α : Type} (p : α → Bool) (f : α → α) (hf : ∀ x, p (f x) = p x)
    (l : List α) :
    (l.map (fun x => if p x then f x else x)).filter p = (l.filter p).map f := by
  induction l with
  | nil => rfl
  | cons a l ih =>
    by_cases hpa : p a
    · simp only [List.map_cons, hpa, if_true, List.filter_cons, hf a, ih]
    · simp only [List.map_cons, hpa, if_false, List.filter_cons, ih, Bool.false_eq_true,
        reduceIte]

/-- Effect of one round upsert on the rows holding its key: a fresh row when
the key was absent, otherwise a date update of the existing row(s). -/
theorem upsertRound_roundsFor (db : DB) (gid : String) (s : Int) (d : String) :
    roundsFor ((upsertRound db gid s d).2) gid s
      = if roundsFor db gid s = [] then
          [{ id := "round:" ++ gid ++ ":" ++ toString s, gradeID := gid, sequenceNo := s,
             provisionalDate := d }]
        else (roundsFor db gid s).map (fun x => { x with provisionalDate := d }) := by
  unfold upsertRound roundsFor
  cases hf : db.rounds.find? (roundKeyMatch gid s) with
  | none =>
    have hnil : db.rounds.filter (roundKeyMatch gid s) = [] := by
      rw [List.filter_eq_nil_iff]
      exact List.find?_eq_none.mp hf
    simp only [hnil, if_true, List.filter_append, List.nil_append, List.filter_cons,
      List.filter_nil]
    simp [roundKeyMatch, hnil]
  | some r =>
    have hmem := List.mem_of_find?_eq_some hf
    have hp := List.find?_some hf
    have hne : db.rounds.filter (roundKeyMatch gid s) ≠ [] := by
      intro hnil
      exact absurd hp (by simpa using (List.filter_eq_nil_iff.mp hnil) r hmem)
    simp only [hne, if_false, reduceIte]
    exact filter_map_update (roundKeyMatch gid s)
      (fun x => { x with provisionalDate := d }) (fun x => rfl) db.rounds

/-- Claim C8: for a row whose grade code resolves to no grade of the context,
row validation returns exactly the one grade-does-not-exist BusinessRule
violation and performs none of the team-membership, round-bound or past-date
checks. -/
theorem claim8_theorem (now : Int) (row : FixtureRow) (context : ValidationContext)
    (h : ∀ g ∈ context.grades, g.code ≠ row.gradeCode) :
    validateFixtureRow now row context
      = [{ type := .BUSINESS_RULE, message := gradeNotExistMsg row.gradeCode,
           gradeID := some row.gradeCode }] := by
  have hfind : context.grades.find? (fun g => g.code == row.gradeCode) = none := by
    rw [List.find?_eq_none]
    intro g hg
    simpa using h g hg
  unfold validateFixtureRow
  rw [hfind]

theorem claim8_witness :
    validateFixtureRow 0
      { gradeCode := "ZZ", homeTeam := "Lions", awayTeam := "Tigers",
        date := "15/03/2024", round := 1 }
      { seasonID := "s1", grades := [{ id := "g1", code := "A1", seasonID := "s1", noOfRounds := 10 }],
        teams := [], existingFixtures := [] }
      = [{ type := .BUSINESS_RULE, message := gradeNotExistMsg "ZZ", gradeID := some "ZZ" }] :=
  claim8_theorem 0 _ _ (by decide)

/-- Claim C2: a failure at any step inside the `persist` transaction rolls the
whole call back — the store is returned exactly as it was — and the failure is
propagated as an error instead of a result. -/
theorem claim2_theorem (roundsParams : List (String × List RoundParam))
    (competitionType : String) (gradeAttributes : List (String × GradeAttrs)) (db : DB)
    (e : PgError) (h : persistGrades db gradeAttributes roundsParams = .error e) :
    persist roundsParams competitionType gradeAttributes db = (.error e, db) := by
  unfold persist
  rw [h]

theorem claim2_witness :
    persist
      [("g1", [{ round := { sequenceNo := 1, provisionalDate := "d1" },
                 games := [{ id := "game1", homeTeamID := "t1", awayTeamID := "t2",
                             date := "15/03/2024" },
                           { id := "game1", homeTeamID := "t3", awayTeamID := "t4",
                             date := "16/03/2024" }] }]),
       ("g2", [{ round := { sequenceNo := 1, provisionalDate := "d1" }, games := [] }])]
      "DOMESTIC"
      [("g1", { noOfRounds := 1, startDate := some "d1" }),
       ("g2", { noOfRounds := 1, startDate := some "d1" })]
      { rounds := [], games := [], grades := [] }
      = (.error (.uniqueViolation "game1"), { rounds := [], games := [], grades := [] }) :=
  claim2_theorem _ _ _ _ _ (by decide)

/-- Claim C10: a raw row whose team names differ only by trailing whitespace
passes every file-format check (in particular the self-play check, which
compares the raw strings), yet is accepted with identical trimmed home and
away team names. -/
theorem claim10_theorem :
    ({ gradeCode := "A1", homeTeam := "Lions", awayTeam := "Lions ",
       date := "15/03/2024", round := 1 } : RawRow).homeTeam
      ≠ ({ gradeCode := "A1", homeTeam := "Lions", awayTeam := "Lions ",
           date := "15/03/2024", round := 1 } : RawRow).awayTeam
    ∧ parseAndValidateFile
        [{ gradeCode := "A1", homeTeam := "Lions", awayTeam := "Lions ",
           date := "15/03/2024", round := 1 }]
        = { fixtureRows := [{ gradeCode := "A1", homeTeam := "Lions", awayTeam := "Lions",
                              date := "15/03/2024", round := 1 }],
            formatErrors := [] }
    ∧ ∀ fr ∈ (parseAndValidateFile
        [{ gradeCode := "A1", homeTeam := "Lions", awayTeam := "Lions ",
           date := "15/03/2024", round := 1 }]).fixtureRows,
        fr.homeTeam = fr.awayTeam := by
  refine ⟨by decide, by decide, ?_⟩
  decide

/-- Claim C3: an upload with any validation violation is rejected in full —
the handler returns the violation messages, the store is untouched and
`persist` is never reached — while an upload with no file-format violation
and no business-rule violation yields zero violations. -/
theorem claim3_theorem (now : Int) (rawRows : List RawRow) (context : ValidationContext)
    (roundsParams : List (String × List RoundParam))
    (allRoundsByGrade : List (String × List RoundRow))
    (competition : Option Competition) (db : DB) :
    (∀ e errs, (validateS3File now rawRows context).validationErrors = some (e :: errs) →
      handle now rawRows context roundsParams allRoundsByGrade competition db
        = { result := .rejected (e :: errs), persistInvoked := false, db := db })
    ∧ ((parseAndValidateFile rawRows).formatErrors = [] →
      validateBusinessRules now (parseAndValidateFile rawRows).fixtureRows context = [] →
      (validateS3File now rawRows context).validationErrors = none) := by
  constructor
  · intro e errs h
    unfold handle
    rw [h]
  · intro h1 h2
    unfold validateS3File
    simp [h1, h2]

theorem claim3_witness :
    handle 0
      [{ gradeCode := "", homeTeam := "Lions", awayTeam := "Tigers",
         date := "15/03/2024", round := 1 }]
      { seasonID := "s1", grades := [], teams := [], existingFixtures := [] }
      [("g1", [{ round := { sequenceNo := 1, provisionalDate := "d1" },
                 games := [{ id := "game1", homeTeamID := "t1", awayTeamID := "t2",
                             date := "15/03/2024" }] }])]
      [] none { rounds := [], games := [], grades := [] }
      = { result := .rejected ["Row 2: Grade Code is required"], persistInvoked := false,
          db := { rounds := [], games := [], grades := [] } } :=
  (claim3_theorem 0 _ _ _ _ _ _).1 "Row 2: Grade Code is required" [] (by decide)

/-- Claim C6: starting from a store that respects the unique index on
(gradeId, sequenceNumber), upserting the same round key twice with different
provisional dates leaves exactly one round row for that key, carrying the
date of the later upsert. -/
theorem claim6_theorem (db : DB) (gradeID : String) (sequenceNo : Int) (d1 d2 : String)
    (hinv : (roundsFor db gradeID sequenceNo).length ≤ 1) (hne : d1 ≠ d2) :
    (roundsFor ((upsertRound ((upsertRound db gradeID sequenceNo d1).2)
        gradeID sequenceNo d2).2) gradeID sequenceNo).length = 1
    ∧ ∀ r ∈ roundsFor ((upsertRound ((upsertRound db gradeID sequenceNo d1).2)
        gradeID sequenceNo d2).2) gradeID sequenceNo, r.provisionalDate = d2 := by
  rw [upsertRound_roundsFor, upsertRound_roundsFor]
  by_cases h0 : roundsFor db gradeID sequenceNo = []
  · simp [h0]
  · have h1 : (roundsFor db gradeID sequenceNo).length = 1 := by
      rcases Nat.lt_or_ge (roundsFor db gradeID sequenceNo).length 1 with h | h
      · exact absurd (List.eq_nil_of_length_eq_zero (Nat.lt_one_iff.mp h)) h0
      · exact Nat.le_antisymm hinv h
    have hmapne : (roundsFor db gradeID sequenceNo).map
        (fun x => { x with provisionalDate := d1 }) ≠ [] := by
      simpa using h0
    simp only [h0, if_false, reduceIte, hmapne]
    constructor
    · simp [h1]
    · intro r hr
      rcases List.mem_map.mp hr with ⟨x, _, hx⟩
      rw [← hx]

theorem claim6_witness :
    ((roundsFor ((upsertRound ((upsertRound { rounds := [], games := [], grades := [] }
        "g1" 1 "01/04/2024").2) "g1" 1 "08/04/2024").2) "g1" 1).length = 1
    ∧ ∀ r ∈ roundsFor ((upsertRound ((upsertRound { rounds := [], games := [], grades := [] }
        "g1" 1 "01/04/2024").2) "g1" 1 "08/04/2024").2) "g1" 1,
        r.provisionalDate = "08/04/2024") :=
  claim6_theorem { rounds := [], games := [], grades := [] } "g1" 1 "01/04/2024" "08/04/2024"
    (by decide) (by decide)

/-- Claim C9 counterexample: a grade whose first already-persisted round has
an empty-string provisional date.  The claim says `startDate` is the first
date of the first existing round (the empty string); the `||` in the code falls
through on the falsy empty string and takes the date of the first supplied
round instead. -/
theorem claim9_counterexample :
    calculateGradeAttributes
      [("g1", [{ round := { sequenceNo := 2, provisionalDate := "15/03/2024" }, games := [] }])]
      [("g1", [{ id := "r1", gradeID := "g1", sequenceNo := 1, provisionalDate := "" }])]
      = [("g1", { noOfRounds := 2, startDate := some "15/03/2024" })]
    ∧ (some "15/03/2024" : Option String) ≠ some "" := by
  exact ⟨by decide, by decide⟩

/-- Claim C9 as amended: for every grade of the upload the computed
`noOfRounds` is the count of existing rounds plus the count of supplied
rounds, and `startDate` is the provisional date of the first existing round when
an existing round is present **and its date is a non-empty string**;
otherwise (no existing round, or its date is the falsy empty string) it is
the provisional date of the first supplied round. -/
theorem claim9_amended (roundsParams : List (String × List RoundParam))
    (allRoundsByGrade : List (String × List RoundRow)) (gid : String)
    (supplied : List RoundParam) (h : (gid, supplied) ∈ roundsParams) :
    (gid, gradeAttrsFor ((allRoundsByGrade.lookup gid).getD []) supplied)
        ∈ calculateGradeAttributes roundsParams allRoundsByGrade
    ∧ (gradeAttrsFor ((allRoundsByGrade.lookup gid).getD []) supplied).noOfRounds
        = (((allRoundsByGrade.lookup gid).getD []).length : Int) + supplied.length
    ∧ (∀ r rest, (allRoundsByGrade.lookup gid).getD [] = r :: rest →
        r.provisionalDate ≠ "" →
        (gradeAttrsFor ((allRoundsByGrade.lookup gid).getD []) supplied).startDate
          = some r.provisionalDate)
    ∧ (∀ r rest, (allRoundsByGrade.lookup gid).getD [] = r :: rest →
        r.provisionalDate = "" →
        (gradeAttrsFor ((allRoundsByGrade.lookup gid).getD []) supplied).startDate
          = supplied.head?.map (fun p => p.round.provisionalDate))
    ∧ ((allRoundsByGrade.lookup gid).getD [] = [] →
        (gradeAttrsFor ((allRoundsByGrade.lookup gid).getD []) supplied).startDate
          = supplied.head?.map (fun p => p.round.provisionalDate)) := by
  refine ⟨?_, rfl, ?_, ?_, ?_⟩
  · have := List.mem_map_of_mem
      (fun p : String × List RoundParam =>
        (p.1, gradeAttrsFor ((allRoundsByGrade.lookup p.1).getD []) p.2)) h
    simpa [calculateGradeAttributes] using this
  · intro r rest hex hne
    simp [gradeAttrsFor, jsOrStr, hex, hne]
  · intro r rest hex he
    simp [gradeAttrsFor, jsOrStr, hex, he]
  · intro hex
    simp [gradeAttrsFor, jsOrStr, hex]

theorem claim9_witness :
    (("g1", gradeAttrsFor (([( "g1",
        [{ id := "r1", gradeID := "g1", sequenceNo := 1, provisionalDate := "01/04/2024" }]
        )].lookup "g1").getD [])
        [{ round := { sequenceNo := 2, provisionalDate := "15/03/2024" }, games := [] }])
      ∈ calculateGradeAttributes
        [("g1", [{ round := { sequenceNo := 2, provisionalDate := "15/03/2024" }, games := [] }])]
        [("g1", [{ id := "r1", gradeID := "g1", sequenceNo := 1, provisionalDate := "01/04/2024" }])])
    ∧ (gradeAttrsFor (([( "g1",
        [{ id := "r1", gradeID := "g1", sequenceNo := 1, provisionalDate := "01/04/2024" }]
        )].lookup "g1").getD [])
        [{ round := { sequenceNo := 2, provisionalDate := "15/03/2024" }, games := [] }]).noOfRounds
      = 2 := by
  have h := claim9_amended
    [("g1", [{ round := { sequenceNo := 2, provisionalDate := "15/03/2024" }, games := [] }])]
    [("g1", [{ id := "r1", gradeID := "g1", sequenceNo := 1, provisionalDate := "01/04/2024" }])]
    "g1" [{ round := { sequenceNo := 2, provisionalDate := "15/03/2024" }, games := [] }]
    (by decide)
  exact ⟨h.1, by decide⟩

/-- Claim C1 counterexample: a row dated in the past (the 15th, with `now` on
the 16th) whose grade — id and code both `A1` — has **zero** existing
fixtures.  The claim says such a row produces no past-date violation; the
code produces exactly the past-date BusinessRule violation (its condition is
`fixtureDate < today && !existingFixtures[grade.id]`). -/
theorem claim1_counterexample :
    lookupFlag [("A1", false)] "A1" = false
    ∧ validateFixtureRow (dateEncode 2024 3 16)
        { gradeCode := "A1", homeTeam := "Lions", awayTeam := "Tigers",
          date := "15/03/2024", round := 1 }
        { seasonID := "s1",
          grades := [{ id := "A1", code := "A1", seasonID := "s1", noOfRounds := 10 }],
          teams := [{ id := "t1", name := "Lions", gradeID := "A1" },
                    { id := "t2", name := "Tigers", gradeID := "A1" }],
          existingFixtures := [("A1", false)] }
        = [{ type := .BUSINESS_RULE, message := pastDateMsg "A1" "15/03/2024",
             gradeID := some "A1" }] := by
  exact ⟨by decide, by decide⟩

/-- Claim C1 as amended: for a row dated before the current processing time
whose grade resolves, the past-date BusinessRule violation is produced
exactly when the existing-fixtures map of the context does **not** map the
grade id to true — i.e. the polarity is the reverse of the claim: a grade
with no recorded fixtures gets the violation and a grade whose id maps to
true is exempt.  (The map consulted is keyed by grade code when the context
is loaded, but read at the grade id.) -/
theorem claim1_amended (now : Int) (row : FixtureRow) (context : ValidationContext)
    (grade : Grade) (t : Int)
    (hg : context.grades.find? (fun g => g.code == row.gradeCode) = some grade)
    (hd : jsDateParse (parseDate row.date) = some t) (hlt : t < now) :
    (lookupFlag context.existingFixtures grade.id = false →
      pastDateError row grade ∈ validateFixtureRow now row context)
    ∧ (lookupFlag context.existingFixtures grade.id = true →
      pastDateError row grade ∉ validateFixtureRow now row context) := by
  unfold validateFixtureRow
  rw [hg]
  constructor
  · intro hf
    have hc : (jsDateLt (jsDateParse (parseDate row.date)) now
        && !(lookupFlag context.existingFixtures grade.id)) = true := by
      rw [hd, hf]; simp [jsDateLt, hlt]
    simp only [hc, if_true, reduceIte]
    simp [List.mem_append, pastDateError]
  · intro hf
    have hc : (jsDateLt (jsDateParse (parseDate row.date)) now
        && !(lookupFlag context.existingFixtures grade.id)) = false := by
      rw [hf]; simp
    simp only [hc]
    intro hmem
    simp only [List.mem_append] at hmem
    have hC := pastDateMsg_head row.gradeCode row.date
    rcases hmem with ((hm | hm) | hm) | hm
    · have hmsg := congrArg ValidationError.message (mem_if_singleton hm)
      simp only [pastDateError] at hmsg
      exact absurd hmsg
        (string_ne_of_head hC (homeTeamMsg_head row.homeTeam row.gradeCode) (by decide))
    · have hmsg := congrArg ValidationError.message (mem_if_singleton hm)
      simp only [pastDateError] at hmsg
      exact absurd hmsg
        (string_ne_of_head hC (awayTeamMsg_head row.awayTeam row.gradeCode) (by decide))
    · have hmsg := congrArg ValidationError.message (mem_if_singleton hm)
      simp only [pastDateError] at hmsg
      exact absurd hmsg
        (string_ne_of_head hC (roundExceedsMsg_head row.round grade.noOfRounds row.gradeCode)
          (by decide))
    · simp at hm

theorem claim1_witness :
    pastDateError
      { gradeCode := "A1", homeTeam := "Lions", awayTeam := "Tigers",
        date := "15/03/2024", round := 1 }
      { id := "A1", code := "A1", seasonID := "s1", noOfRounds := 10 }
      ∈ validateFixtureRow (dateEncode 2024 3 16)
        { gradeCode := "A1", homeTeam := "Lions", awayTeam := "Tigers",
          date := "15/03/2024", round := 1 }
        { seasonID := "s1",
          grades := [{ id := "A1", code := "A1", seasonID := "s1", noOfRounds := 10 }],
          teams := [{ id := "t1", name := "Lions", gradeID := "A1" },
                    { id := "t2", name := "Tigers", gradeID := "A1" }],
          existingFixtures := [] } :=
  (claim1_amended (dateEncode 2024 3 16) _ _ _ (dateEncode 2024 3 15)
    (by decide) (by decide) (by decide)).1 (by decide)

/-- Claim C4 counterexample: two rows with identical (gradeCode, homeTeam,
awayTeam, round) yield **three** DataIntegrity violations, not one: the
duplicate-game violation on the second occurrence plus a double-booking
violation for each of the two teams, which the second occurrence necessarily
triggers as well. -/
theorem claim4_counterexample :
    validateCrossRowRules
      [{ gradeCode := "A1", homeTeam := "Lions", awayTeam := "Tigers",
         date := "15/03/2024", round := 1 },
       { gradeCode := "A1", homeTeam := "Lions", awayTeam := "Tigers",
         date := "15/03/2024", round := 1 }]
      = [{ type := .DATA_INTEGRITY,
           message := dupGameMsg { gradeCode := "A1", homeTeam := "Lions", awayTeam := "Tigers",
                                   date := "15/03/2024", round := 1 } },
         { type := .DATA_INTEGRITY, message := doubleBookMsg "Lions" 1 "A1" },
         { type := .DATA_INTEGRITY, message := doubleBookMsg "Tigers" 1 "A1" }]
    ∧ (validateCrossRowRules
        [{ gradeCode := "A1", homeTeam := "Lions", awayTeam := "Tigers",
           date := "15/03/2024", round := 1 },
         { gradeCode := "A1", homeTeam := "Lions", awayTeam := "Tigers",
           date := "15/03/2024", round := 1 }]).length ≠ 1 := by
  exact ⟨by decide, by decide⟩

/-- Claim C4 as amended: a pair of rows with identical (gradeCode, homeTeam,
awayTeam, round) yields exactly three DataIntegrity violations, all against
the second occurrence (the first occurrence is not flagged): one
duplicate-game violation, then one double-booking violation for the home
team and one for the away team. -/
theorem claim4_amended (r : FixtureRow) (h : r.homeTeam ≠ r.awayTeam) :
    validateCrossRowRules [r, r]
      = [{ type := .DATA_INTEGRITY, message := dupGameMsg r },
         { type := .DATA_INTEGRITY, message := doubleBookMsg r.homeTeam r.round r.gradeCode },
         { type := .DATA_INTEGRITY, message := doubleBookMsg r.awayTeam r.round r.gradeCode }] := by
  have hk : (r.gradeCode ++ "-" ++ r.homeTeam) ≠ (r.gradeCode ++ "-" ++ r.awayTeam) :=
    fun he => h (string_append_left_cancel he)
  have hksym : (r.gradeCode ++ "-" ++ r.awayTeam) ≠ (r.gradeCode ++ "-" ++ r.homeTeam) :=
    Ne.symm hk
  simp [validateCrossRowRules, crossLoop, crossStep, trackerHas, trackerGet, trackerAdd,
    hk, hksym, List.contains]

theorem claim4_witness :
    validateCrossRowRules
      [{ gradeCode := "B2", homeTeam := "Cats", awayTeam := "Dogs",
         date := "01/05/2024", round := 3 },
       { gradeCode := "B2", homeTeam := "Cats", awayTeam := "Dogs",
         date := "01/05/2024", round := 3 }]
      = [{ type := .DATA_INTEGRITY,
           message := dupGameMsg { gradeCode := "B2", homeTeam := "Cats", awayTeam := "Dogs",
                                   date := "01/05/2024", round := 3 } },
         { type := .DATA_INTEGRITY, message := doubleBookMsg "Cats" 3 "B2" },
         { type := .DATA_INTEGRITY, message := doubleBookMsg "Dogs" 3 "B2" }] :=
  claim4_amended
    { gradeCode := "B2", homeTeam := "Cats", awayTeam := "Dogs",
      date := "01/05/2024", round := 3 } (by decide)

/-- Claim C7 counterexample: an upload whose first row has a file-format
violation and whose second row carries a business-rule violation.  The claim
says the returned list is the union of all stages; the code returns only the
file-format message — `validateS3File` stops after the format stage — even
though a business-rule violation exists for the parsed row set. -/
theorem claim7_counterexample :
    (validateS3File 0
      [{ gradeCode := "", homeTeam := "Lions", awayTeam := "Tigers",
         date := "15/03/2024", round := 1 },
       { gradeCode := "ZZ", homeTeam := "Lions", awayTeam := "Tigers",
         date := "15/03/2024", round := 1 }]
      { seasonID := "s1", grades := [], teams := [], existingFixtures := [] }).validationErrors
      = some ["Row 2: Grade Code is required"]
    ∧ validateBusinessRules 0
        (parseAndValidateFile
          [{ gradeCode := "", homeTeam := "Lions", awayTeam := "Tigers",
             date := "15/03/2024", round := 1 },
           { gradeCode := "ZZ", homeTeam := "Lions", awayTeam := "Tigers",
             date := "15/03/2024", round := 1 }]).fixtureRows
        { seasonID := "s1", grades := [], teams := [], existingFixtures := [] }
      = [{ type := .BUSINESS_RULE, message := gradeNotExistMsg "ZZ", gradeID := some "ZZ" }]
    ∧ gradeNotExistMsg "ZZ" ∉ ["Row 2: Grade Code is required"] := by
  exact ⟨by decide, by decide, by decide⟩

/-- Claim C7 as amended: when the file-format stage finds no violation, every
business-rule and cross-row violation of the parsed row set reaches the
returned list (the business stage is exhaustive over rows); but a file-format
violation anywhere short-circuits `validateS3File` — only the format messages
are returned and the business-rule and cross-row stages never run. -/
theorem claim7_amended (now : Int) (rawRows : List RawRow) (context : ValidationContext) :
    ((parseAndValidateFile rawRows).formatErrors = [] →
      ∀ e ∈ validateBusinessRules now (parseAndValidateFile rawRows).fixtureRows context,
        ∃ msgs, (validateS3File now rawRows context).validationErrors = some msgs
          ∧ e.message ∈ msgs)
    ∧ ((parseAndValidateFile rawRows).formatErrors ≠ [] →
      (validateS3File now rawRows context).validationErrors
        = some ((parseAndValidateFile rawRows).formatErrors.map (fun e => e.message))) := by
  constructor
  · intro hfmt e he
    refine ⟨(validateBusinessRules now (parseAndValidateFile rawRows).fixtureRows context).map
      (fun x => x.message), ?_, List.mem_map_of_mem _ he⟩
    have hbne : validateBusinessRules now (parseAndValidateFile rawRows).fixtureRows context
        ≠ [] := List.ne_nil_of_mem he
    simp [validateS3File, hfmt, hbne]
  · intro hfmt
    simp [validateS3File, hfmt]

theorem claim7_witness :
    (validateS3File 0
      [{ gradeCode := "", homeTeam := "Lions", awayTeam := "Tigers",
         date := "15/03/2024", round := 2 }]
      { seasonID := "s2", grades := [], teams := [], existingFixtures := [] }).validationErrors
      = some ["Row 2: Grade Code is required"] :=
  (claim7_amended 0 _ _).2 (by decide)

theorem upsertRound_games (db : DB) (gid : String) (s : Int) (d : String) :
    ((upsertRound db gid s d).2).games = db.games := by
  unfold upsertRound
  cases db.rounds.find? (roundKeyMatch gid s) <;> rfl

theorem updateGradeAttributes_games (db : DB) (gid : String) (attributes : Option GradeAttrs)
    (db2 : DB) (h : updateGradeAttributes db gid attributes = .ok db2) :
    db2.games = db.games := by
  cases attributes with
  | none => simp [updateGradeAttributes] at h
  | some a =>
    simp [updateGradeAttributes] at h
    rw [← h]

theorem insertGames_spec (rid : String) (gs : List GameData) :
    ∀ (db : DB) (gids tids : List String) (db2 : DB),
      insertGames db rid gs = .ok (gids, tids, db2) →
      gids = gs.map (fun g => g.id)
      ∧ gameIDsOf db2 = gameIDsOf db ++ gs.map (fun g => g.id)
      ∧ ∀ i ∈ gs.map (fun g => g.id), i ∉ gameIDsOf db := by
  induction gs with
  | nil =>
    intro db gids tids db2 h
    simp [insertGames] at h
    obtain ⟨h1, h2, h3⟩ := h
    subst h1; subst h3
    simp
  | cons g gs ih =>
    intro db gids tids db2 h
    unfold insertGames at h
    cases hins : insertGame db rid g with
    | error e => rw [hins] at h; simp at h
    | ok p =>
      obtain ⟨gameID, db1⟩ := p
      rw [hins] at h; simp only [] at h
      cases hrest : insertGames db1 rid gs with
      | error e => rw [hrest] at h; simp at h
      | ok q =>
        obtain ⟨gids1, tids1, db2x⟩ := q
        rw [hrest] at h; simp only [] at h
        simp only [Except.ok.injEq, Prod.mk.injEq] at h
        obtain ⟨hg, ht, hdb⟩ := h
        unfold insertGame at hins
        by_cases hany : db.games.any (fun x => x.id == g.id)
        · simp [hany] at hins
        · simp only [hany, Bool.false_eq_true, if_false, reduceIte, Except.ok.injEq,
            Prod.mk.injEq] at hins
          obtain ⟨hid, hdb1⟩ := hins
          have hnotin : g.id ∉ gameIDsOf db := by
            intro hmem
            rcases List.mem_map.mp hmem with ⟨x, hx, hxid⟩
            have hall : ∀ x ∈ db.games, ¬ x.id = g.id := by simpa using hany
            exact hall x hx hxid
          have hdb1games : gameIDsOf db1 = gameIDsOf db ++ [g.id] := by
            rw [← hdb1]
            simp [gameIDsOf]
          obtain ⟨ih1, ih2, ih3⟩ := ih db1 gids1 tids1 db2x hrest
          refine ⟨?_, ?_, ?_⟩
          · rw [← hg, ih1, ← hid]
            simp
          · rw [← hdb, ih2, hdb1games]
            simp
          · intro i hi
            simp only [List.map_cons, List.mem_cons] at hi
            rcases hi with hi | hi
            · rw [hi]; exact hnotin
            · intro hmem
              exact ih3 i hi (by rw [hdb1games]; exact List.mem_append_left _ hmem)

theorem persistRound_spec (db : DB) (gid : String) (rp : RoundParam)
    (gids tids : List String) (db2 : DB)
    (h : persistRound db gid rp = .ok (gids, tids, db2)) :
    gids = rp.games.map (fun g => g.id)
    ∧ gameIDsOf db2 = gameIDsOf db ++ rp.games.map (fun g => g.id)
    ∧ ∀ i ∈ rp.games.map (fun g => g.id), i ∉ gameIDsOf db := by
  unfold persistRound at h
  have hup : gameIDsOf ((upsertRound db gid rp.round.sequenceNo rp.round.provisionalDate).2)
      = gameIDsOf db := by
    unfold gameIDsOf
    rw [upsertRound_games]
  obtain ⟨h1, h2, h3⟩ := insertGames_spec _ rp.games _ gids tids db2 h
  rw [hup] at h2 h3
  exact ⟨h1, h2, h3⟩

theorem persistRoundsLoop_spec (gid : String) (rps : List RoundParam) :
    ∀ (db : DB) (gids tids : List String) (db2 : DB),
      persistRoundsLoop db gid rps = .ok (gids, tids, db2) →
      gids = roundsGameIDs rps
      ∧ gameIDsOf db2 = gameIDsOf db ++ roundsGameIDs rps
      ∧ ∀ i ∈ roundsGameIDs rps, i ∉ gameIDsOf db := by
  induction rps with
  | nil =>
    intro db gids tids db2 h
    simp [persistRoundsLoop] at h
    obtain ⟨h1, h2, h3⟩ := h
    subst h1; subst h3
    simp [roundsGameIDs]
  | cons rp rps ih =>
    intro db gids tids db2 h
    unfold persistRoundsLoop at h
    cases hpr : persistRound db gid rp with
    | error e => rw [hpr] at h; simp at h
    | ok p =>
      obtain ⟨gids1, tids1, db1⟩ := p
      rw [hpr] at h; simp only [] at h
      cases hrest : persistRoundsLoop db1 gid rps with
      | error e => rw [hrest] at h; simp at h
      | ok q =>
        obtain ⟨gids2, tids2, db2x⟩ := q
        rw [hrest] at h; simp only [] at h
        simp only [Except.ok.injEq, Prod.mk.injEq] at h
        obtain ⟨hg, ht, hdb⟩ := h
        obtain ⟨p1, p2, p3⟩ := persistRound_spec db gid rp gids1 tids1 db1 hpr
        obtain ⟨q1, q2, q3⟩ := ih db1 gids2 tids2 db2x hrest
        have hids : roundsGameIDs (rp :: rps)
            = rp.games.map (fun g => g.id) ++ roundsGameIDs rps := by
          simp [roundsGameIDs]
        refine ⟨?_, ?_, ?_⟩
        · rw [← hg, p1, q1, hids]
        · rw [← hdb, q2, p2, hids, List.append_assoc]
        · intro i hi
          rw [hids] at hi
          rcases List.mem_append.mp hi with hi | hi
          · exact p3 i hi
          · intro hmem
            exact q3 i hi (by rw [p2]; exact List.mem_append_left _ hmem)

theorem persistGrades_spec (gradeAttributes : List (String × GradeAttrs))
    (entries : List (String × List RoundParam)) :
    ∀ (db : DB) (gids tids : List String) (db2 : DB),
      persistGrades db gradeAttributes entries = .ok (gids, tids, db2) →
      gids = paramsGameIDs entries
      ∧ gameIDsOf db2 = gameIDsOf db ++ paramsGameIDs entries
      ∧ ∀ i ∈ paramsGameIDs entries, i ∉ gameIDsOf db := by
  induction entries with
  | nil =>
    intro db gids tids db2 h
    simp [persistGrades] at h
    obtain ⟨h1, h2, h3⟩ := h
    subst h1; subst h3
    simp [paramsGameIDs]
  | cons entry entries ih =>
    intro db gids tids db2 h
    obtain ⟨gid, rps⟩ := entry
    unfold persistGrades at h
    cases hrl : persistRoundsLoop db gid rps with
    | error e => rw [hrl] at h; simp at h
    | ok p =>
      obtain ⟨gids1, tids1, db1⟩ := p
      rw [hrl] at h; simp only [] at h
      cases hua : updateGradeAttributes db1 gid (gradeAttributes.lookup gid) with
      | error e => rw [hua] at h; simp at h
      | ok db1x =>
        rw [hua] at h; simp only [] at h
        cases hrest : persistGrades db1x gradeAttributes entries with
        | error e => rw [hrest] at h; simp at h
        | ok q =>
          obtain ⟨gids2, tids2, db2x⟩ := q
          rw [hrest] at h; simp only [] at h
          simp only [Except.ok.injEq, Prod.mk.injEq] at h
          obtain ⟨hg, ht, hdb⟩ := h
          obtain ⟨p1, p2, p3⟩ := persistRoundsLoop_spec gid rps db gids1 tids1 db1 hrl
          have hux : gameIDsOf db1x = gameIDsOf db1 := by
            unfold gameIDsOf
            rw [updateGradeAttributes_games db1 gid _ db1x hua]
          obtain ⟨q1, q2, q3⟩ := ih db1x gids2 tids2 db2x hrest
          have hids : paramsGameIDs ((gid, rps) :: entries)
              = roundsGameIDs rps ++ paramsGameIDs entries := by
            simp [paramsGameIDs]
          refine ⟨?_, ?_, ?_⟩
          · rw [← hg, p1, q1, hids]
          · rw [← hdb, q2, hux, p2, hids, List.append_assoc]
          · intro i hi
            rw [hids] at hi
            rcases List.mem_append.mp hi with hi | hi
            · exact p3 i hi
            · intro hmem
              exact q3 i hi (by rw [hux, p2]; exact List.mem_append_left _ hmem)

/-- Claim C5 as amended: re-running `persist` with the same game ids does not
duplicate games, but not through store upsert semantics: the game insert has
no conflict handling, so under the unique game-id key of the store the second run
fails with a uniqueness error, the transaction rolls back and the store is
left exactly as the first run committed it, with the error propagated. -/
theorem claim5_amended (roundsParams : List (String × List RoundParam)) (competitionType : String)
    (gradeAttributes : List (String × GradeAttrs)) (db : DB) (res : PersistResult) (db1 : DB)
    (h1 : persist roundsParams competitionType gradeAttributes db = (.ok res, db1))
    (h2 : res.gameIDs ≠ []) :
    (persist roundsParams competitionType gradeAttributes db1).1.isOk = false
    ∧ (persist roundsParams competitionType gradeAttributes db1).2 = db1 := by
  unfold persist at h1
  cases hpg : persistGrades db gradeAttributes roundsParams with
  | error e => rw [hpg] at h1; simp at h1
  | ok p =>
    obtain ⟨allGameIDs, allTeamIDs, dbx⟩ := p
    rw [hpg] at h1; simp only [] at h1
    simp only [Prod.mk.injEq, Except.ok.injEq] at h1
    obtain ⟨hres, hdb⟩ := h1
    obtain ⟨s1, s2, s3⟩ := persistGrades_spec gradeAttributes roundsParams db _ _ _ hpg
    have hgids : res.gameIDs = paramsGameIDs roundsParams := by
      rw [← hres, ← s1]
    have hin : ∀ i ∈ paramsGameIDs roundsParams, i ∈ gameIDsOf db1 := by
      intro i hi
      rw [← hdb, s2]
      exact List.mem_append_right _ hi
    unfold persist
    cases hpg2 : persistGrades db1 gradeAttributes roundsParams with
    | error e => simp [Except.isOk, Except.toBool]
    | ok q =>
      obtain ⟨g2, t2, db2x⟩ := q
      obtain ⟨r1, r2, r3⟩ := persistGrades_spec gradeAttributes roundsParams db1 _ _ _ hpg2
      exfalso
      rw [hgids] at h2
      rcases List.exists_mem_of_ne_nil _ h2 with ⟨i, hi⟩
      exact r3 i hi (hin i hi)

/-- Claim C5 counterexample: one grade, one round, one game.  The first
`persist` run succeeds; re-running it with the same game id is **not**
absorbed by upsert/conflict semantics — it fails with a unique-violation
error (and rolls back), because the game insert has no `ON CONFLICT`
clause. -/
theorem claim5_counterexample :
    (persist
      [("g1", [{ round := { sequenceNo := 1, provisionalDate := "d1" },
                 games := [{ id := "game1", homeTeamID := "t1", awayTeamID := "t2",
                             date := "15/03/2024" }] }])]
      "DOMESTIC" [("g1", { noOfRounds := 1, startDate := some "d1" })]
      { rounds := [], games := [], grades := [] }).1.isOk = true
    ∧ (persist
        [("g1", [{ round := { sequenceNo := 1, provisionalDate := "d1" },
                   games := [{ id := "game1", homeTeamID := "t1", awayTeamID := "t2",
                               date := "15/03/2024" }] }])]
        "DOMESTIC" [("g1", { noOfRounds := 1, startDate := some "d1" })]
        ((persist
          [("g1", [{ round := { sequenceNo := 1, provisionalDate := "d1" },
                     games := [{ id := "game1", homeTeamID := "t1", awayTeamID := "t2",
                                 date := "15/03/2024" }] }])]
          "DOMESTIC" [("g1", { noOfRounds := 1, startDate := some "d1" })]
          { rounds := [], games := [], grades := [] }).2)).1
      = .error (.uniqueViolation "game1") := by
  exact ⟨by decide, by decide⟩

theorem claim5_witness :
    (persist
      [("g1", [{ round := { sequenceNo := 1, provisionalDate := "d1" },
                 games := [{ id := "game1", homeTeamID := "t1", awayTeamID := "t2",
                             date := "15/03/2024" }] }])]
      "DOMESTIC" [("g1", { noOfRounds := 1, startDate := some "d1" })]
      { rounds := [{ id := "round:g1:1", gradeID := "g1", sequenceNo := 1,
                     provisionalDate := "d1" }],
        games := [{ id := "game1", roundID := "round:g1:1", homeTeamID := "t1",
                    awayTeamID := "t2", date := "15/03/2024", provisionalDates := [] }],
        grades := [] }).1.isOk = false
    ∧ (persist
        [("g1", [{ round := { sequenceNo := 1, provisionalDate := "d1" },
                   games := [{ id := "game1", homeTeamID := "t1", awayTeamID := "t2",
                               date := "15/03/2024" }] }])]
        "DOMESTIC" [("g1", { noOfRounds := 1, startDate := some "d1" })]
        { rounds := [{ id := "round:g1:1", gradeID := "g1", sequenceNo := 1,
                       provisionalDate := "d1" }],
          games := [{ id := "game1", roundID := "round:g1:1", homeTeamID := "t1",
                      awayTeamID := "t2", date := "15/03/2024", provisionalDates := [] }],
          grades := [] }).2
      = { rounds := [{ id := "round:g1:1", gradeID := "g1", sequenceNo := 1,
                       provisionalDate := "d1" }],
          games := [{ id := "game1", roundID := "round:g1:1", homeTeamID := "t1",
                      awayTeamID := "t2", date := "15/03/2024", provisionalDates := [] }],
          grades := [] } :=
  claim5_amended
    [("g1", [{ round := { sequenceNo := 1, provisionalDate := "d1" },
               games := [{ id := "game1", homeTeamID := "t1", awayTeamID := "t2",
                           date := "15/03/2024" }] }])]
    "DOMESTIC" [("g1", { noOfRounds := 1, startDate := some "d1" })]
    { rounds := [], games := [], grades := [] }
    { gradeIDs := ["g1"], teamIDs := ["t1", "t2"], gameIDs := ["game1"] }
    { rounds := [{ id := "round:g1:1", gradeID := "g1", sequenceNo := 1,
                   provisionalDate := "d1" }],
      games := [{ id := "game1", roundID := "round:g1:1", homeTeamID := "t1",
                  awayTeamID := "t2", date := "15/03/2024", provisionalDates := [] }],
      grades := [] }
    (by decide) (by decide)
